import Mathlib

/-!
# BufferHubBase: the client-side handle of a shared graphics buffer

A shallow embedding of `libs/vr/libbufferhub/buffer_hub_base.cpp`.

* Every member function becomes a function on an explicit record of the
  object's fields (`BufferHubBase`).
* The answers of the collaborators the file calls but does not define (the
  GetBuffer RPC, the IonBuffer importer, `Lock`, `Duplicate`, `epoll_ctl`)
  are passed in as explicit records (`ImportEnv`, `FenceEnv`), one per call.
* The two atomic words of the mapped metadata header live in an explicit
  shared memory (`SharedMemory`), keyed by the address of the mapping.
* Calls with an effect outside the object (`Lock`, `Unlock`, `epoll_ctl`) are
  reported in a list of `Event`s, in program order.
-/

namespace BufferHub

/-! ## Constants and machine arithmetic -/

/-- Value of errno `EIO`. -/
def EIO : Int := 5

/-- Value of errno `E2BIG`. -/
def E2BIG : Int := 7

/-- Value of errno `ENOMEM`. -/
def ENOMEM : Int := 12

/-- Value of errno `EINVAL`. -/
def EINVAL : Int := 22

/-- Width in bits of `size_t`, `uintptr_t` and of the two atomic state words
(the source prints the latter with `PRIx64`). -/
def kWordBits : Nat := 64

/-- Conversion `static_cast<size_t>(int)`: reduction modulo `2 ^ 64`. -/
def size_t_of_int (i : Int) : Nat := (i % (2 ^ kWordBits : Nat)).toNat

/-- Bitwise complement `~x` of a 64-bit word. -/
def bit_not (x : Nat) : Nat := 2 ^ kWordBits - 1 - x % 2 ^ kWordBits

/-- Constants of `BufferHubDefs` the file uses; they are declared outside
these sources and stay parameters. -/
structure BufferHubDefs where
  /-- Size in bytes of the metadata header, `sizeof(MetadataHeader)`. -/
  kMetadataHeaderSize : Nat

/-! ## Collaborator types -/

/-- A `pdx::LocalHandle`, seen through the two observations the file makes of
it: `Get()` and `IsValid()` (also its conversion to `bool`). -/
structure LocalHandle where
  /-- Result of `Get()`: the descriptor number. -/
  fd : Int
  /-- Result of `IsValid()`. -/
  valid : Bool
deriving DecidableEq

/-- Accessor `LocalHandle::Get`. -/
def LocalHandle.Get (h : LocalHandle) : Int := h.fd

/-- Accessor `LocalHandle::IsValid`. -/
def LocalHandle.IsValid (h : LocalHandle) : Bool := h.valid

/-- The empty handle, a default-constructed `LocalHandle`. -/
def LocalHandle.empty : LocalHandle := { fd := -1, valid := false }

/-- An `IonBuffer`, seen through its identity and its `width()`. -/
structure IonBuffer where
  /-- Identity of the underlying allocation (0 for a default-constructed one). -/
  handle : Nat
  /-- Result of `width()`, an `int`. -/
  width : Int
deriving DecidableEq

/-- A default-constructed `IonBuffer`. -/
def IonBuffer.empty : IonBuffer := { handle := 0, width := 0 }

/-- The `BufferDescription<LocalHandle>` returned by the GetBuffer RPC, seen
through the member functions `ImportBuffer` calls on it. -/
structure BufferDescription where
  /-- Result of `id()`. -/
  id : Int
  /-- Result of `buffer_cid()`. -/
  buffer_cid : Int
  /-- Result of `buffer_state_bit()`. -/
  buffer_state_bit : Nat
  /-- Return value of `ImportBuffer(&ion_buffer)`. -/
  import_buffer_ret : Int
  /-- The buffer `ImportBuffer(&ion_buffer)` stores in `ion_buffer`. -/
  ion_buffer : IonBuffer
  /-- Return value of `ImportMetadata(&metadata_buffer)`. -/
  import_metadata_ret : Int
  /-- The buffer `ImportMetadata(&metadata_buffer)` stores in `metadata_buffer`. -/
  metadata_buffer : IonBuffer
  /-- Result of `take_acquire_fence()`. -/
  acquire_fence : LocalHandle
  /-- Result of `take_release_fence()`. -/
  release_fence : LocalHandle

/-- A `pdx::Status<T>`, seen through its conversion to `bool`, `error()` and
`get()`/`take()`. -/
structure Status (α : Type) where
  /-- Result of the conversion to `bool`. -/
  ok : Bool
  /-- Result of `error()`. -/
  error : Int
  /-- Result of `get()` and of `take()`. -/
  value : α

/-- What the collaborators answer during one call of `ImportBuffer`. -/
structure ImportEnv where
  /-- Result of `InvokeRemoteMethod<BufferHubRPC::GetBuffer>()`. -/
  status : Status BufferDescription
  /-- Return value of `metadata_buffer_.Lock(...)`. -/
  lock_ret : Int
  /-- Address `Lock` stores in `metadata_ptr` (0 is `nullptr`). -/
  metadata_ptr : Nat

/-- What the collaborators answer during one call of `UpdateSharedFence`. -/
structure FenceEnv where
  /-- Return value of `epoll_ctl(..., EPOLL_CTL_DEL, ...)`; it is only logged. -/
  del_ret : Int
  /-- Result of `new_fence.Duplicate()`. -/
  dup : LocalHandle
  /-- Return value of `epoll_ctl(..., EPOLL_CTL_ADD, ...)`. -/
  add_ret : Int
  /-- Value of `errno` read after the add. -/
  errno : Int

/-- The two atomic words of a mapped `MetadataHeader`. -/
structure MetadataHeader where
  /-- The word `buffer_state`. -/
  buffer_state : Nat
  /-- The word `fence_state`. -/
  fence_state : Nat
deriving DecidableEq

/-- Shared memory: the metadata header found at each mapping address. -/
abbrev SharedMemory := Nat → MetadataHeader

/-- Calls that act outside the object, as they appear in program order. -/
inductive Event where
  /-- A call `buf.Lock(...)` on a metadata buffer, with its return value. -/
  | lock (buf : IonBuffer) (ret : Int)
  /-- A call `buf.Unlock()` on a metadata buffer. -/
  | unlock (buf : IonBuffer)
  /-- A call `epoll_ctl(epfd, EPOLL_CTL_DEL, fd, nullptr)`. -/
  | epoll_del (epfd : Int) (fd : Int)
  /-- A call `epoll_ctl(epfd, EPOLL_CTL_ADD, fd, &event)`, `key` being
  `event.data.u64`. -/
  | epoll_add (epfd : Int) (fd : Int) (key : Nat)
deriving DecidableEq

/-- Whether an event is a registration with the multiplexer. -/
def Event.isAdd : Event → Bool
  | .epoll_add _ _ _ => true
  | _ => false

/-- Whether an event is a `Lock` that returned 0, so a mapping was made. -/
def Event.isMapping : Event → Bool
  | .lock _ ret => ret == 0
  | _ => false

/-- Whether an event is an `Unlock`. -/
def Event.isUnlock : Event → Bool
  | .unlock _ => true
  | _ => false

/-! ## The object -/

/-- The data members of `BufferHubBase`. Pointers are addresses, 0 being
`nullptr`; `buffer_state_` and `fence_state_` hold the address of the header
whose member they designate. -/
structure BufferHubBase where
  buffer_ : IonBuffer
  metadata_buffer_ : IonBuffer
  metadata_buf_size_ : Nat
  user_metadata_size_ : Nat
  shared_acquire_fence_ : LocalHandle
  shared_release_fence_ : LocalHandle
  metadata_header_ : Nat
  user_metadata_ptr_ : Nat
  id_ : Int
  cid_ : Int
  buffer_state_bit_ : Nat
  buffer_state_ : Nat
  fence_state_ : Nat
  pending_fence_fd_ : LocalHandle
deriving DecidableEq

/-- Modelled from the spec: the constructors set `id_` and `cid_` to -1; the
initial values of the other members are declared outside these sources, and
the spec gives a new handle no mappings and no fences. -/
def BufferHubBase.init : BufferHubBase :=
  { buffer_ := IonBuffer.empty
    metadata_buffer_ := IonBuffer.empty
    metadata_buf_size_ := 0
    user_metadata_size_ := 0
    shared_acquire_fence_ := LocalHandle.empty
    shared_release_fence_ := LocalHandle.empty
    metadata_header_ := 0
    user_metadata_ptr_ := 0
    id_ := -1
    cid_ := -1
    buffer_state_bit_ := 0
    buffer_state_ := 0
    fence_state_ := 0
    pending_fence_fd_ := LocalHandle.empty }

/-- Accessor `buffer_state_bit()`. -/
def BufferHubBase.buffer_state_bit (h : BufferHubBase) : Nat := h.buffer_state_bit_

/-- The destructor `~BufferHubBase`: the calls it makes. -/
def BufferHubBase.destructor (h : BufferHubBase) : List Event :=
  if h.metadata_header_ ≠ 0 then [Event.unlock h.metadata_buffer_] else []

/-- Result of a member function: return value, object afterwards, calls made. -/
structure Outcome where
  ret : Int
  self : BufferHubBase
  events : List Event

/-- The member function `BufferHubBase::ImportBuffer`. -/
def ImportBuffer (defs : BufferHubDefs) (h : BufferHubBase) (env : ImportEnv) : Outcome :=
  let status := env.status
  if !status.ok then
    { ret := -status.error, self := h, events := [] }
  else if status.value.id < 0 then
    { ret := - EIO, self := h, events := [] }
  else
    let buffer_desc := status.value
    let new_id := buffer_desc.id
    if buffer_desc.import_buffer_ret ≠ 0 then
      { ret := buffer_desc.import_buffer_ret, self := h, events := [] }
    else if buffer_desc.import_metadata_ret ≠ 0 then
      { ret := buffer_desc.import_metadata_ret, self := h, events := [] }
    else
      let metadata_buf_size := size_t_of_int buffer_desc.metadata_buffer.width
      if metadata_buf_size < defs.kMetadataHeaderSize then
        { ret := - ENOMEM, self := h, events := [] }
      else
        let h1 : BufferHubBase :=
          { h with
            buffer_ := buffer_desc.ion_buffer
            metadata_buffer_ := buffer_desc.metadata_buffer
            metadata_buf_size_ := metadata_buf_size
            user_metadata_size_ := metadata_buf_size - defs.kMetadataHeaderSize }
        let ev := [Event.lock h1.metadata_buffer_ env.lock_ret]
        if env.lock_ret ≠ 0 then
          { ret := env.lock_ret, self := h1, events := ev }
        else
          let metadata_ptr := env.metadata_ptr
          let h2 : BufferHubBase :=
            { h1 with
              shared_acquire_fence_ := buffer_desc.acquire_fence
              shared_release_fence_ := buffer_desc.release_fence }
          if !h2.shared_acquire_fence_.IsValid || !h2.shared_release_fence_.IsValid then
            { ret := - EIO, self := h2, events := ev }
          else
            let h3 : BufferHubBase :=
              { h2 with
                metadata_header_ := metadata_ptr
                user_metadata_ptr_ :=
                  if h2.user_metadata_size_ ≠ 0 then
                    (metadata_ptr + defs.kMetadataHeaderSize) % 2 ^ kWordBits
                  else 0
                id_ := new_id
                cid_ := buffer_desc.buffer_cid
                buffer_state_bit_ := buffer_desc.buffer_state_bit
                buffer_state_ := metadata_ptr
                fence_state_ := metadata_ptr }
            { ret := 0, self := h3, events := ev }

/-- The member function `BufferHubBase::CheckMetadata`. -/
def CheckMetadata (h : BufferHubBase) (user_metadata_size : Nat) : Int :=
  if user_metadata_size ≠ 0 ∧ h.user_metadata_ptr_ = 0 then - EINVAL
  else if user_metadata_size > h.user_metadata_size_ then - E2BIG
  else 0

/-! ## Fence coordination -/

/-- The call `fence_state_->fetch_or(mask)` on the header mapped at `addr`. -/
def fence_state_fetch_or (mem : SharedMemory) (addr mask : Nat) : SharedMemory :=
  Function.update mem addr { mem addr with fence_state := (mem addr).fence_state ||| mask }

/-- The call `fence_state_->fetch_and(mask)` on the header mapped at `addr`. -/
def fence_state_fetch_and (mem : SharedMemory) (addr mask : Nat) : SharedMemory :=
  Function.update mem addr { mem addr with fence_state := (mem addr).fence_state &&& mask }

/-- Result of a member function that may write the shared header. -/
structure SharedOutcome where
  ret : Int
  self : BufferHubBase
  mem : SharedMemory
  events : List Event

/-- The member function `BufferHubBase::UpdateSharedFence`. The result is
`none` when the call dereferences a null `fence_state_`, which the language
leaves undefined. -/
def UpdateSharedFence (h : BufferHubBase) (new_fence shared_fence : LocalHandle)
    (env : FenceEnv) (mem : SharedMemory) : Option SharedOutcome :=
  if h.pending_fence_fd_.Get ≠ new_fence.Get then
    let ev1 : List Event :=
      if h.pending_fence_fd_.IsValid then
        [Event.epoll_del shared_fence.Get h.pending_fence_fd_.Get]
      else []
    if new_fence.IsValid then
      let h1 : BufferHubBase := { h with pending_fence_fd_ := env.dup }
      let ev2 := ev1 ++ [Event.epoll_add shared_fence.Get h1.pending_fence_fd_.Get
        h.buffer_state_bit]
      if env.add_ret < 0 then
        let error := env.errno
        some { ret := -error, self := h1, mem := mem, events := ev2 }
      else if h1.fence_state_ = 0 then none
      else
        some { ret := 0, self := h1
               mem := fence_state_fetch_or mem h1.fence_state_ h1.buffer_state_bit
               events := ev2 }
    else if h.fence_state_ = 0 then none
    else
      some { ret := 0, self := h
             mem := fence_state_fetch_and mem h.fence_state_ (bit_not h.buffer_state_bit)
             events := ev1 }
  else
    some { ret := 0, self := h, mem := mem, events := [] }

/-- One call of a member function of the handle, with its arguments and the
answers of the collaborators. -/
inductive Call where
  | ImportBuffer (env : ImportEnv)
  | CheckMetadata (user_metadata_size : Nat)
  | UpdateSharedFence (new_fence shared_fence : LocalHandle) (env : FenceEnv)

/-- Runs one call on the object and the shared memory. `ImportBuffer` and
`CheckMetadata` contain no store to the mapped header (`CheckMetadata` is a
`const` member), so they hand the memory on. -/
def Call.run (defs : BufferHubDefs) (h : BufferHubBase) (mem : SharedMemory) :
    Call → Option SharedOutcome
  | .ImportBuffer env =>
      let r := BufferHub.ImportBuffer defs h env
      some { ret := r.ret, self := r.self, mem := mem, events := r.events }
  | .CheckMetadata n =>
      some { ret := BufferHub.CheckMetadata h n, self := h, mem := mem, events := [] }
  | .UpdateSharedFence new_fence shared_fence env =>
      BufferHub.UpdateSharedFence h new_fence shared_fence env mem

/-! ## Blob descriptors -/

/-- A `native_handle_t`, seen through `numFds` and the array `data`. -/
structure native_handle_t where
  /-- The member `numFds`, an `int`. -/
  numFds : Int
  /-- The array `data`, by index. -/
  data : Nat → Int

/-- The algorithm `std::copy(first, first + n, out)` between two arrays: `n`
assignments `*out++ = *first++`. -/
def std_copy (src : Nat → Int) : (first n : Nat) → (dst : Nat → Int) → (out : Nat) → Nat → Int
  | _, 0, dst, _ => dst
  | first, n + 1, dst, out =>
      std_copy src (first + 1) n (Function.update dst out (src first)) (out + 1)

/-- The member function `BufferHubBase::GetBlobFds`; `nh` is the object
`native_handle()` points to. Returns the array `fds` and `*fds_count`. -/
def GetBlobFds (nh : native_handle_t) (fds : Nat → Int) (max_fds_count : Nat) :
    (Nat → Int) × Nat :=
  let numFds := size_t_of_int nh.numFds
  let fds_count := min max_fds_count numFds
  (std_copy nh.data 0 fds_count fds 0, fds_count)

/-! ## Predicates and abbreviations used by the statements -/

/-- The address `Lock` reports designates a mapping of the whole metadata
region that lies inside the address space: it is not null and the region does
not wrap around. -/
def MappedInAddressSpace (env : ImportEnv) : Prop :=
  0 < env.metadata_ptr ∧
    env.metadata_ptr + size_t_of_int env.status.value.metadata_buffer.width ≤ 2 ^ kWordBits

instance (env : ImportEnv) : Decidable (MappedInAddressSpace env) := by
  unfold MappedInAddressSpace
  infer_instance

/-- The events of the branch that replaces the pending fence, up to the add. -/
def replaceEvents (h : BufferHubBase) (shared_fence : LocalHandle) (env : FenceEnv) :
    List Event :=
  (if h.pending_fence_fd_.IsValid then
      [Event.epoll_del shared_fence.Get h.pending_fence_fd_.Get]
    else []) ++ [Event.epoll_add shared_fence.Get env.dup.Get h.buffer_state_bit_]

/-- What a call may do to the shared memory when the handle's participation
mask is `b`: every `buffer_state` word keeps its value and every `fence_state`
word keeps its value outside `b`. -/
def WithinOwnBit (b : Nat) (mem mem' : SharedMemory) : Prop :=
  ∀ a, (mem' a).buffer_state = (mem a).buffer_state ∧
    (mem' a).fence_state &&& bit_not b = (mem a).fence_state &&& bit_not b

/-- The region size `ImportBuffer` reads from the metadata buffer. -/
def regionSize (env : ImportEnv) : Nat :=
  size_t_of_int env.status.value.metadata_buffer.width

/-- The object a fully successful `ImportBuffer` leaves behind. -/
def committed (defs : BufferHubDefs) (h : BufferHubBase) (env : ImportEnv) : BufferHubBase :=
  { h with
    buffer_ := env.status.value.ion_buffer
    metadata_buffer_ := env.status.value.metadata_buffer
    metadata_buf_size_ := regionSize env
    user_metadata_size_ := regionSize env - defs.kMetadataHeaderSize
    shared_acquire_fence_ := env.status.value.acquire_fence
    shared_release_fence_ := env.status.value.release_fence
    metadata_header_ := env.metadata_ptr
    user_metadata_ptr_ :=
      if regionSize env - defs.kMetadataHeaderSize ≠ 0 then
        (env.metadata_ptr + defs.kMetadataHeaderSize) % 2 ^ kWordBits
      else 0
    id_ := env.status.value.id
    cid_ := env.status.value.buffer_cid
    buffer_state_bit_ := env.status.value.buffer_state_bit
    buffer_state_ := env.metadata_ptr
    fence_state_ := env.metadata_ptr }

/-! ## Concrete scenarios -/

/-- A valid descriptor handle with number `n`. -/
def validFd (n : Int) : LocalHandle := { fd := n, valid := true }

/-- The header size used by the concrete scenarios: the two 8-byte words. -/
def defs16 : BufferHubDefs := { kMetadataHeaderSize := 16 }

/-- A buffer description all of whose imports pass: buffer #7, participation
bit 1, a metadata region of `width` bytes, both fences valid. -/
def goodDescription (width : Int) : BufferDescription :=
  { id := 7, buffer_cid := 3, buffer_state_bit := 1
    import_buffer_ret := 0, ion_buffer := { handle := 100, width := 64 }
    import_metadata_ret := 0, metadata_buffer := { handle := 200, width := width }
    acquire_fence := validFd 10, release_fence := validFd 11 }

/-- An environment in which every step of the import passes and the header is
mapped at address 4096. -/
def goodImport (width : Int) : ImportEnv :=
  { status := { ok := true, error := 0, value := goodDescription width }
    lock_ret := 0, metadata_ptr := 4096 }

/-- As `goodImport`, but `Lock` fails with `-ENOMEM`. -/
def lockFailsImport (width : Int) : ImportEnv :=
  { goodImport width with lock_ret := -12, metadata_ptr := 0 }

/-- As `goodImport`, but the description carries no acquire fence. -/
def noFenceImport (width : Int) : ImportEnv :=
  { goodImport width with
    status := { ok := true, error := 0
                value := { goodDescription width with acquire_fence := LocalHandle.empty } } }

/-- The handle after one successful import of a region of `width` bytes. -/
def importedHandle (width : Int) : BufferHubBase :=
  (ImportBuffer defs16 BufferHubBase.init (goodImport width)).self

/-- A multiplexer that accepts everything; `Duplicate` yields descriptor `n`. -/
def acceptingMux (n : Int) : FenceEnv :=
  { del_ret := 0, dup := validFd n, add_ret := 0, errno := 0 }

/-- A multiplexer whose add fails with errno `e`; `Duplicate` yields descriptor `n`. -/
def rejectingMux (n : Int) (e : Int) : FenceEnv :=
  { del_ret := 0, dup := validFd n, add_ret := -1, errno := e }

/-- Shared memory in which every header holds the two given words. -/
def constMemory (buffer_state fence_state : Nat) : SharedMemory :=
  fun _ => { buffer_state := buffer_state, fence_state := fence_state }

/-- A native handle with three descriptors, 40, 41 and 42, and then integers. -/
def threeFds : native_handle_t := { numFds := 3, data := fun i => 40 + i }

/-! ## Bit-level lemmas -/

theorem testBit_bit_not (x i : Nat) :
    (bit_not x).testBit i = (decide (i < kWordBits) && !x.testBit i) := by
  have hlt : x % 2 ^ kWordBits < 2 ^ kWordBits := Nat.mod_lt _ (Nat.two_pow_pos _)
  have hrw : bit_not x = 2 ^ kWordBits - (x % 2 ^ kWordBits + 1) := by
    unfold bit_not; omega
  rw [hrw, Nat.testBit_two_pow_sub_succ hlt, Nat.testBit_mod_two_pow]
  cases decide (i < kWordBits) <;> simp

theorem or_and_bit_not (x b : Nat) : (x ||| b) &&& bit_not b = x &&& bit_not b := by
  apply Nat.eq_of_testBit_eq
  intro i
  simp only [Nat.testBit_and, Nat.testBit_or, testBit_bit_not]
  cases x.testBit i <;> cases b.testBit i <;> cases decide (i < kWordBits) <;> rfl

theorem and_bit_not_and (x b : Nat) : (x &&& bit_not b) &&& b = 0 := by
  apply Nat.eq_of_testBit_eq
  intro i
  simp only [Nat.testBit_and, testBit_bit_not, Nat.zero_testBit]
  cases x.testBit i <;> cases b.testBit i <;> cases decide (i < kWordBits) <;> rfl

theorem or_and_self (x b : Nat) : (x ||| b) &&& b = b := by
  apply Nat.eq_of_testBit_eq
  intro i
  simp only [Nat.testBit_and, Nat.testBit_or]
  cases x.testBit i <;> cases b.testBit i <;> rfl

/-! ## Lemmas on the shared memory -/

theorem fetch_or_buffer_state (mem : SharedMemory) (addr mask a : Nat) :
    (fence_state_fetch_or mem addr mask a).buffer_state = (mem a).buffer_state := by
  unfold fence_state_fetch_or
  by_cases h : a = addr
  · subst h; simp
  · simp [Function.update_noteq h]

theorem fetch_and_buffer_state (mem : SharedMemory) (addr mask a : Nat) :
    (fence_state_fetch_and mem addr mask a).buffer_state = (mem a).buffer_state := by
  unfold fence_state_fetch_and
  by_cases h : a = addr
  · subst h; simp
  · simp [Function.update_noteq h]

theorem fetch_or_fence_state_same (mem : SharedMemory) (addr mask : Nat) :
    (fence_state_fetch_or mem addr mask addr).fence_state = (mem addr).fence_state ||| mask := by
  simp [fence_state_fetch_or]

theorem fetch_and_fence_state_same (mem : SharedMemory) (addr mask : Nat) :
    (fence_state_fetch_and mem addr mask addr).fence_state = (mem addr).fence_state &&& mask := by
  simp [fence_state_fetch_and]

theorem fetch_or_frame (mem : SharedMemory) (addr b a : Nat) :
    (fence_state_fetch_or mem addr b a).fence_state &&& bit_not b
      = (mem a).fence_state &&& bit_not b := by
  by_cases h : a = addr
  · subst h; rw [fetch_or_fence_state_same, or_and_bit_not]
  · simp [fence_state_fetch_or, Function.update_noteq h]

theorem fetch_and_frame (mem : SharedMemory) (addr b a : Nat) :
    (fence_state_fetch_and mem addr (bit_not b) a).fence_state &&& bit_not b
      = (mem a).fence_state &&& bit_not b := by
  by_cases h : a = addr
  · subst h; rw [fetch_and_fence_state_same, Nat.and_assoc, Nat.and_self]
  · simp [fence_state_fetch_and, Function.update_noteq h]

/-! ## The three exits of `UpdateSharedFence` that touch the multiplexer -/

theorem UpdateSharedFence_accepted (h : BufferHubBase) (new_fence shared_fence : LocalHandle)
    (env : FenceEnv) (mem : SharedMemory)
    (himported : h.fence_state_ ≠ 0)
    (hvalid : new_fence.IsValid = true)
    (hnew : h.pending_fence_fd_.Get ≠ new_fence.Get)
    (haccepted : ¬ env.add_ret < 0) :
    UpdateSharedFence h new_fence shared_fence env mem =
      some { ret := 0, self := { h with pending_fence_fd_ := env.dup }
             mem := fence_state_fetch_or mem h.fence_state_ h.buffer_state_bit_
             events := replaceEvents h shared_fence env } := by
  unfold UpdateSharedFence
  rw [if_pos hnew, if_pos hvalid]
  simp only [if_neg haccepted, if_neg himported]
  rfl

theorem UpdateSharedFence_rejected (h : BufferHubBase) (new_fence shared_fence : LocalHandle)
    (env : FenceEnv) (mem : SharedMemory)
    (hvalid : new_fence.IsValid = true)
    (hnew : h.pending_fence_fd_.Get ≠ new_fence.Get)
    (hrejected : env.add_ret < 0) :
    UpdateSharedFence h new_fence shared_fence env mem =
      some { ret := -env.errno, self := { h with pending_fence_fd_ := env.dup }
             mem := mem
             events := replaceEvents h shared_fence env } := by
  unfold UpdateSharedFence
  rw [if_pos hnew, if_pos hvalid]
  simp only [if_pos hrejected]
  rfl

theorem UpdateSharedFence_cleared (h : BufferHubBase) (new_fence shared_fence : LocalHandle)
    (env : FenceEnv) (mem : SharedMemory)
    (himported : h.fence_state_ ≠ 0)
    (hinvalid : new_fence.IsValid = false)
    (hnew : h.pending_fence_fd_.Get ≠ new_fence.Get) :
    UpdateSharedFence h new_fence shared_fence env mem =
      some { ret := 0, self := h
             mem := fence_state_fetch_and mem h.fence_state_ (bit_not h.buffer_state_bit_)
             events :=
               if h.pending_fence_fd_.IsValid then
                 [Event.epoll_del shared_fence.Get h.pending_fence_fd_.Get]
               else [] } := by
  unfold UpdateSharedFence
  rw [if_pos hnew]
  simp only [hinvalid, Bool.false_eq_true, if_false, if_neg himported]
  rfl

theorem replaceEvents_any_isAdd (h : BufferHubBase) (shared_fence : LocalHandle)
    (env : FenceEnv) : (replaceEvents h shared_fence env).any Event.isAdd = true := by
  simp [replaceEvents, Event.isAdd]

/-! ## The frame of the handle's operations -/

theorem withinOwnBit_refl (b : Nat) (mem : SharedMemory) : WithinOwnBit b mem mem :=
  fun _ => ⟨rfl, rfl⟩

theorem UpdateSharedFence_frame (h : BufferHubBase) (new_fence shared_fence : LocalHandle)
    (env : FenceEnv) (mem : SharedMemory) :
    match UpdateSharedFence h new_fence shared_fence env mem with
    | some r => WithinOwnBit h.buffer_state_bit_ mem r.mem
    | none => h.fence_state_ = 0 := by
  unfold UpdateSharedFence
  by_cases hne : h.pending_fence_fd_.Get ≠ new_fence.Get
  · rw [if_pos hne]
    by_cases hv : new_fence.IsValid = true
    · rw [if_pos hv]
      by_cases hadd : env.add_ret < 0
      · simp only [if_pos hadd]
        exact withinOwnBit_refl _ _
      · simp only [if_neg hadd]
        by_cases hfs : h.fence_state_ = 0
        · simp only [if_pos hfs]
          exact hfs
        · simp only [if_neg hfs]
          intro a
          exact ⟨fetch_or_buffer_state _ _ _ _, fetch_or_frame _ _ _ _⟩
    · rw [if_neg hv]
      by_cases hfs : h.fence_state_ = 0
      · simp only [if_pos hfs]
        exact hfs
      · simp only [if_neg hfs]
        intro a
        exact ⟨fetch_and_buffer_state _ _ _ _, fetch_and_frame _ _ _ _⟩
  · rw [if_neg hne]
    exact withinOwnBit_refl _ _

/-- C2: no operation of the handle writes outside its own fence bit. For every
handle, with participation mask `b`, every shared memory and every call of
`ImportBuffer`, `CheckMetadata` or `UpdateSharedFence`, whatever the
collaborators answer: the call is defined and leaves every `buffer_state` word
unchanged and every `fence_state` word unchanged outside `b`; the only
undefined case is `UpdateSharedFence` on a handle whose `fence_state_` is
null, a handle that was never imported. -/
theorem C2_no_write_outside_own_bit (defs : BufferHubDefs) (h : BufferHubBase)
    (mem : SharedMemory) (c : Call) :
    match c.run defs h mem with
    | some r => WithinOwnBit h.buffer_state_bit_ mem r.mem
    | none => h.fence_state_ = 0 := by
  cases c with
  | ImportBuffer env => exact withinOwnBit_refl _ _
  | CheckMetadata n => exact withinOwnBit_refl _ _
  | UpdateSharedFence new_fence shared_fence env =>
      exact UpdateSharedFence_frame h new_fence shared_fence env mem

/-- C4: on an imported handle (its `fence_state_` is bound) with mask `b`, a
call of `UpdateSharedFence` that registers a valid fence (its descriptor
differs from the pending one, so the add is made) and whose add the
multiplexer accepts returns 0 and leaves `FenceState OR b` in the handle's
fence word, so the bit `b` is set. -/
theorem C4_registered_fence_sets_bit (h : BufferHubBase) (new_fence shared_fence : LocalHandle)
    (env : FenceEnv) (mem : SharedMemory)
    (himported : h.fence_state_ ≠ 0)
    (hvalid : new_fence.IsValid = true)
    (hnew : h.pending_fence_fd_.Get ≠ new_fence.Get)
    (haccepted : ¬ env.add_ret < 0) :
    ∃ r, UpdateSharedFence h new_fence shared_fence env mem = some r ∧
      r.ret = 0 ∧
      r.events.any Event.isAdd = true ∧
      (r.mem h.fence_state_).fence_state
        = (mem h.fence_state_).fence_state ||| h.buffer_state_bit_ ∧
      (r.mem h.fence_state_).fence_state &&& h.buffer_state_bit_ = h.buffer_state_bit_ := by
  refine Exists.intro _ (And.intro
    (UpdateSharedFence_accepted h new_fence shared_fence env mem himported hvalid hnew haccepted)
    (And.intro rfl (And.intro (replaceEvents_any_isAdd h shared_fence env)
      (And.intro (fetch_or_fence_state_same _ _ _) ?_))))
  show (fence_state_fetch_or mem h.fence_state_ h.buffer_state_bit_ h.fence_state_).fence_state
    &&& h.buffer_state_bit_ = h.buffer_state_bit_
  rw [fetch_or_fence_state_same, or_and_self]

/-- Witness of C4: the first valid fence given to a freshly imported handle. -/
theorem C4_witness :
    ∃ r, UpdateSharedFence (importedHandle 24) (validFd 5) (validFd 9) (acceptingMux 6)
        (constMemory 2 0) = some r ∧
      r.ret = 0 ∧
      r.events.any Event.isAdd = true ∧
      (r.mem (importedHandle 24).fence_state_).fence_state
        = ((constMemory 2 0) (importedHandle 24).fence_state_).fence_state
            ||| (importedHandle 24).buffer_state_bit_ ∧
      (r.mem (importedHandle 24).fence_state_).fence_state
        &&& (importedHandle 24).buffer_state_bit_ = (importedHandle 24).buffer_state_bit_ :=
  C4_registered_fence_sets_bit (importedHandle 24) (validFd 5) (validFd 9) (acceptingMux 6)
    (constMemory 2 0) (by decide) (by decide) (by decide) (by decide)

/-- C5 as stated fails: a freshly imported handle has the empty pending fence
(descriptor -1); called with the empty fence (descriptor -1) while the shared
fence word already holds the handle's bit, `UpdateSharedFence` takes the
"same as the old" exit and the bit is still set afterwards. -/
theorem C5_counterexample :
    (importedHandle 24).fence_state_ = 4096 ∧
    (importedHandle 24).buffer_state_bit_ = 1 ∧
    LocalHandle.empty.IsValid = false ∧
    (UpdateSharedFence (importedHandle 24) LocalHandle.empty (validFd 9) (acceptingMux 6)
        (constMemory 0 1)).map (fun r => (r.ret, (r.mem 4096).fence_state &&& 1))
      = some (0, 1) := by
  decide

/-- C5, amended: on an imported handle with mask `b`, a call of
`UpdateSharedFence` with an invalid fence whose descriptor differs from the
pending fence's descriptor returns 0 and leaves `FenceState AND NOT b` in the
handle's fence word, so the bit `b` is cleared. -/
theorem C5_invalid_fence_clears_bit (h : BufferHubBase) (new_fence shared_fence : LocalHandle)
    (env : FenceEnv) (mem : SharedMemory)
    (himported : h.fence_state_ ≠ 0)
    (hinvalid : new_fence.IsValid = false)
    (hnew : h.pending_fence_fd_.Get ≠ new_fence.Get) :
    ∃ r, UpdateSharedFence h new_fence shared_fence env mem = some r ∧
      r.ret = 0 ∧
      (r.mem h.fence_state_).fence_state
        = (mem h.fence_state_).fence_state &&& bit_not h.buffer_state_bit_ ∧
      (r.mem h.fence_state_).fence_state &&& h.buffer_state_bit_ = 0 := by
  refine Exists.intro _ (And.intro
    (UpdateSharedFence_cleared h new_fence shared_fence env mem himported hinvalid hnew)
    (And.intro rfl (And.intro (fetch_and_fence_state_same _ _ _) ?_)))
  show (fence_state_fetch_and mem h.fence_state_ (bit_not h.buffer_state_bit_)
    h.fence_state_).fence_state &&& h.buffer_state_bit_ = 0
  rw [fetch_and_fence_state_same, and_bit_not_and]

/-- Witness of the amended C5: clearing after a fence with descriptor 6 was
left pending. -/
theorem C5_witness :
    ∃ r, UpdateSharedFence { importedHandle 24 with pending_fence_fd_ := validFd 6 }
        LocalHandle.empty (validFd 9) (acceptingMux 7) (constMemory 0 3) = some r ∧
      r.ret = 0 ∧
      (r.mem 4096).fence_state = ((constMemory 0 3) 4096).fence_state &&& bit_not 1 ∧
      (r.mem 4096).fence_state &&& 1 = 0 :=
  C5_invalid_fence_clears_bit { importedHandle 24 with pending_fence_fd_ := validFd 6 }
    LocalHandle.empty (validFd 9) (acceptingMux 7) (constMemory 0 3)
    (by decide) (by decide) (by decide)

/-- C9: for every handle, every shared memory and every valid fence whose
descriptor differs from the pending one, if the add to the multiplexer fails
(negative return, errno `e`) then `UpdateSharedFence` returns `-e`, the add
was attempted, and the shared memory, the fence word included, is unchanged. -/
theorem C9_rejected_registration (h : BufferHubBase) (new_fence shared_fence : LocalHandle)
    (env : FenceEnv) (mem : SharedMemory) (e : Int)
    (hvalid : new_fence.IsValid = true)
    (hnew : h.pending_fence_fd_.Get ≠ new_fence.Get)
    (hrejected : env.add_ret < 0)
    (herrno : env.errno = e) :
    ∃ r, UpdateSharedFence h new_fence shared_fence env mem = some r ∧
      r.ret = -e ∧ r.mem = mem ∧ r.events.any Event.isAdd = true := by
  refine Exists.intro _ (And.intro
    (UpdateSharedFence_rejected h new_fence shared_fence env mem hvalid hnew hrejected)
    (And.intro ?_ (And.intro rfl (replaceEvents_any_isAdd h shared_fence env))))
  show -env.errno = -e
  rw [herrno]

/-- Witness of C9: the add fails with `EBADF` (9) on an imported handle. -/
theorem C9_witness :
    ∃ r, UpdateSharedFence (importedHandle 24) (validFd 5) (validFd 9) (rejectingMux 6 9)
        (constMemory 2 0) = some r ∧
      r.ret = -9 ∧ r.mem = constMemory 2 0 ∧ r.events.any Event.isAdd = true :=
  C9_rejected_registration (importedHandle 24) (validFd 5) (validFd 9) (rejectingMux 6 9)
    (constMemory 2 0) 9 (by decide) (by decide) (by decide) rfl

/-! ## Import -/

theorem ImportBuffer_succeeded (defs : BufferHubDefs) (h : BufferHubBase) (env : ImportEnv)
    (hrpc : env.status.ok = true)
    (hret : (ImportBuffer defs h env).ret = 0) :
    defs.kMetadataHeaderSize ≤ regionSize env ∧
      (ImportBuffer defs h env).self = committed defs h env := by
  unfold ImportBuffer at hret ⊢
  simp only [hrpc, Bool.not_true, Bool.false_eq_true, if_false] at hret ⊢
  by_cases h1 : env.status.value.id < 0
  · simp [h1, EIO] at hret
  · simp only [if_neg h1] at hret ⊢
    by_cases h2 : env.status.value.import_buffer_ret ≠ 0
    · simp only [if_pos h2] at hret
      exact absurd hret h2
    · simp only [if_neg h2] at hret ⊢
      by_cases h3 : env.status.value.import_metadata_ret ≠ 0
      · simp only [if_pos h3] at hret
        exact absurd hret h3
      · simp only [if_neg h3] at hret ⊢
        by_cases h4 : size_t_of_int env.status.value.metadata_buffer.width
            < defs.kMetadataHeaderSize
        · simp [h4, ENOMEM] at hret
        · simp only [if_neg h4] at hret ⊢
          by_cases h5 : env.lock_ret ≠ 0
          · simp only [if_pos h5] at hret
            exact absurd hret h5
          · simp only [if_neg h5] at hret ⊢
            by_cases h6 : (!env.status.value.acquire_fence.IsValid
                || !env.status.value.release_fence.IsValid) = true
            · simp [h6, EIO] at hret
            · simp only [if_neg h6]
              exact ⟨Nat.le_of_not_lt h4, rfl⟩

theorem ImportBuffer_unchanged_before_commit (defs : BufferHubDefs) (h : BufferHubBase)
    (env : ImportEnv)
    (hearly : env.status.ok = false ∨ env.status.value.id < 0 ∨
      env.status.value.import_buffer_ret ≠ 0 ∨ env.status.value.import_metadata_ret ≠ 0 ∨
      regionSize env < defs.kMetadataHeaderSize) :
    (ImportBuffer defs h env).self = h ∧ (ImportBuffer defs h env).events = [] := by
  unfold ImportBuffer
  unfold regionSize at hearly
  by_cases h0 : env.status.ok = true
  · simp only [h0, Bool.not_true, Bool.false_eq_true, if_false]
    by_cases h1 : env.status.value.id < 0
    · simp [h1]
    · simp only [if_neg h1]
      by_cases h2 : env.status.value.import_buffer_ret ≠ 0
      · simp [h2]
      · simp only [if_neg h2]
        by_cases h3 : env.status.value.import_metadata_ret ≠ 0
        · simp [h3]
        · simp only [if_neg h3]
          by_cases h4 : size_t_of_int env.status.value.metadata_buffer.width
              < defs.kMetadataHeaderSize
          · simp [h4]
          · rcases hearly with h | h | h | h | h
            · rw [h0] at h; exact absurd h (by decide)
            · exact absurd h h1
            · exact absurd h h2
            · exact absurd h h3
            · exact absurd h h4
  · simp [h0]

/-! ## Metadata capacity -/

theorem committed_user_ptr_ne_zero (defs : BufferHubDefs) (h : BufferHubBase) (env : ImportEnv)
    (hmapped : MappedInAddressSpace env)
    (hpos : (committed defs h env).user_metadata_size_ ≠ 0) :
    (committed defs h env).user_metadata_ptr_ ≠ 0 := by
  have hsz : regionSize env - defs.kMetadataHeaderSize ≠ 0 := hpos
  obtain ⟨hp, hend⟩ := hmapped
  have hend2 : env.metadata_ptr + regionSize env ≤ 2 ^ kWordBits := hend
  show (if regionSize env - defs.kMetadataHeaderSize ≠ 0 then
      (env.metadata_ptr + defs.kMetadataHeaderSize) % 2 ^ kWordBits else 0) ≠ 0
  rw [if_pos hsz]
  have hlt : env.metadata_ptr + defs.kMetadataHeaderSize < 2 ^ kWordBits := by omega
  rw [Nat.mod_eq_of_lt hlt]
  omega

theorem CheckMetadata_zero (g : BufferHubBase) : CheckMetadata g 0 = 0 := by
  simp [CheckMetadata]

/-- The capacity law on the object a successful `ImportBuffer` has just left
(the RPC answered and the call returned 0), `Lock` having reported a mapping of
the region inside the address space: `UserMetadataSize` is the region size
minus `kMetadataHeaderSize`, `CheckMetadata(n)` returns 0 for every
`n <= UserMetadataSize`, and `CheckMetadata(0)` returns 0 on every handle
whatsoever. -/
theorem CheckMetadata_within_capacity_after_import (defs : BufferHubDefs) (h : BufferHubBase)
    (env : ImportEnv) (n : Nat)
    (hrpc : env.status.ok = true)
    (hret : (ImportBuffer defs h env).ret = 0)
    (hmapped : MappedInAddressSpace env)
    (hn : n ≤ (ImportBuffer defs h env).self.user_metadata_size_) :
    (ImportBuffer defs h env).self.user_metadata_size_
        = regionSize env - defs.kMetadataHeaderSize ∧
      CheckMetadata (ImportBuffer defs h env).self n = 0 ∧
      ∀ g : BufferHubBase, CheckMetadata g 0 = 0 := by
  obtain ⟨_, hself⟩ := ImportBuffer_succeeded defs h env hrpc hret
  rw [hself] at hn ⊢
  refine ⟨rfl, ?_, CheckMetadata_zero⟩
  unfold CheckMetadata
  by_cases hz : n = 0
  · subst hz; simp
  · have hpos : (committed defs h env).user_metadata_size_ ≠ 0 := by omega
    have hptr := committed_user_ptr_ne_zero defs h env hmapped hpos
    rw [if_neg (fun hc => hptr hc.2), if_neg (Nat.not_lt.mpr hn)]

/-- An instance of the law: a region of 24 bytes with a 16-byte header, 8 bytes
asked. -/
theorem CheckMetadata_within_capacity_example :
    (ImportBuffer defs16 BufferHubBase.init (goodImport 24)).self.user_metadata_size_
        = regionSize (goodImport 24) - defs16.kMetadataHeaderSize ∧
      CheckMetadata (ImportBuffer defs16 BufferHubBase.init (goodImport 24)).self 8 = 0 ∧
      ∀ g : BufferHubBase, CheckMetadata g 0 = 0 :=
  CheckMetadata_within_capacity_after_import defs16 BufferHubBase.init (goodImport 24) 8
    (by decide) (by decide) (by decide) (by decide)

/-- On the object a successful `ImportBuffer` has just left, the user-metadata
area is absent exactly when `UserMetadataSize` is 0, so every
`CheckMetadata(n)` with `n > UserMetadataSize` fails with `-E2BIG` when
`UserMetadataSize` is not 0 and with `-EINVAL` when it is 0. -/
theorem CheckMetadata_beyond_capacity_after_import (defs : BufferHubDefs) (h : BufferHubBase)
    (env : ImportEnv) (n : Nat)
    (hrpc : env.status.ok = true)
    (hret : (ImportBuffer defs h env).ret = 0)
    (hmapped : MappedInAddressSpace env)
    (hn : (ImportBuffer defs h env).self.user_metadata_size_ < n) :
    CheckMetadata (ImportBuffer defs h env).self n =
      if (ImportBuffer defs h env).self.user_metadata_size_ = 0 then - EINVAL else - E2BIG := by
  obtain ⟨_, hself⟩ := ImportBuffer_succeeded defs h env hrpc hret
  rw [hself] at hn ⊢
  unfold CheckMetadata
  by_cases hz : (committed defs h env).user_metadata_size_ = 0
  · have hsz : regionSize env - defs.kMetadataHeaderSize = 0 := hz
    have hptr : (committed defs h env).user_metadata_ptr_ = 0 := by
      show (if regionSize env - defs.kMetadataHeaderSize ≠ 0 then
        (env.metadata_ptr + defs.kMetadataHeaderSize) % 2 ^ kWordBits else 0) = 0
      rw [if_neg (fun hc => hc hsz)]
    have hn0 : n ≠ 0 := by omega
    rw [if_pos ⟨hn0, hptr⟩, if_pos hz]
  · have hptr := committed_user_ptr_ne_zero defs h env hmapped hz
    rw [if_neg (fun hc => hptr hc.2), if_pos hn, if_neg hz]

/-- An instance: 9 bytes asked of an 8-byte user area. -/
theorem CheckMetadata_beyond_capacity_example :
    CheckMetadata (ImportBuffer defs16 BufferHubBase.init (goodImport 24)).self 9 =
      if (ImportBuffer defs16 BufferHubBase.init (goodImport 24)).self.user_metadata_size_ = 0
      then - EINVAL else - E2BIG :=
  CheckMetadata_beyond_capacity_after_import defs16 BufferHubBase.init (goodImport 24) 9
    (by decide) (by decide) (by decide) (by decide)

/-- C1 fails on the code at the two exits taken after line 83 has begun to
replace the members. On a new handle: when every import passes and `Lock`
fails, `ImportBuffer` returns the non-zero code of `Lock` but the handle is
not as it was (`buffer_`, `metadata_buffer_` and both sizes are replaced);
when `Lock` passes and the acquire fence is invalid, it returns `-EIO`, the
shared fences are replaced as well, and the mapping `Lock` made stays
established although `id_` is still -1. -/
theorem C1_late_failure_mutates_handle :
    (ImportBuffer defs16 BufferHubBase.init (lockFailsImport 24)).ret = -12 ∧
    (ImportBuffer defs16 BufferHubBase.init (lockFailsImport 24)).self ≠ BufferHubBase.init ∧
    (ImportBuffer defs16 BufferHubBase.init (lockFailsImport 24)).self
      = { BufferHubBase.init with
          buffer_ := { handle := 100, width := 64 }
          metadata_buffer_ := { handle := 200, width := 24 }
          metadata_buf_size_ := 24
          user_metadata_size_ := 8 } ∧
    (ImportBuffer defs16 BufferHubBase.init (noFenceImport 24)).ret = - EIO ∧
    (ImportBuffer defs16 BufferHubBase.init (noFenceImport 24)).self
      = { BufferHubBase.init with
          buffer_ := { handle := 100, width := 64 }
          metadata_buffer_ := { handle := 200, width := 24 }
          metadata_buf_size_ := 24
          user_metadata_size_ := 8
          shared_release_fence_ := validFd 11 } ∧
    (ImportBuffer defs16 BufferHubBase.init (noFenceImport 24)).events
      = [Event.lock { handle := 200, width := 24 } 0] ∧
    (ImportBuffer defs16 BufferHubBase.init (noFenceImport 24)).self.id_ = -1 := by
  decide

/-- C8 fails on the code: on a new handle, an `ImportBuffer` in which `Lock`
returns 0 and the acquire fence is invalid returns `-EIO` with the mapping
established and `metadata_header_` still null, so the destructor makes no
`Unlock` call at all. -/
theorem C8_mapping_left_locked :
    (ImportBuffer defs16 BufferHubBase.init (noFenceImport 24)).ret = - EIO ∧
    (ImportBuffer defs16 BufferHubBase.init (noFenceImport 24)).events.countP Event.isMapping
      = 1 ∧
    (ImportBuffer defs16 BufferHubBase.init (noFenceImport 24)).self.metadata_header_ = 0 ∧
    (ImportBuffer defs16 BufferHubBase.init (noFenceImport 24)).self.destructor = [] ∧
    (ImportBuffer defs16 BufferHubBase.init (noFenceImport 24)).self.destructor.countP
      Event.isUnlock = 0 := by
  decide

/-- C6 fails on the code: a handle is imported with a region that is exactly
the 16-byte header (the import returns 0, `UserMetadataSize` is 0, the user
pointer is null) and then re-imported with a 24-byte region whose `Lock`
fails. The failed call has already stored the new size: the handle, still
imported, has `UserMetadataSize` 8 and a null user pointer, and
`CheckMetadata(4)`, with `4 <= 8`, returns `-EINVAL` instead of 0. -/
theorem C6_failed_reimport_breaks_capacity :
    (ImportBuffer defs16 BufferHubBase.init (goodImport 16)).ret = 0 ∧
    (importedHandle 16).user_metadata_size_ = 0 ∧
    (ImportBuffer defs16 (importedHandle 16) (lockFailsImport 24)).ret = -12 ∧
    (ImportBuffer defs16 (importedHandle 16) (lockFailsImport 24)).self.id_ = 7 ∧
    (ImportBuffer defs16 (importedHandle 16) (lockFailsImport 24)).self.fence_state_
      = 4096 ∧
    (ImportBuffer defs16 (importedHandle 16) (lockFailsImport 24)).self.user_metadata_size_
      = 8 ∧
    (ImportBuffer defs16 (importedHandle 16) (lockFailsImport 24)).self.user_metadata_ptr_
      = 0 ∧
    CheckMetadata (ImportBuffer defs16 (importedHandle 16) (lockFailsImport 24)).self 4
      = - EINVAL ∧
    CheckMetadata (ImportBuffer defs16 (importedHandle 16) (lockFailsImport 24)).self 4
      ≠ 0 := by
  decide

/-! ## Fence idempotence -/

/-- C3 fails on the code: an imported handle with no pending fence is given
the valid fence with descriptor 5 twice. The first call stores the duplicate
(descriptor 6) as pending fence; in the second call the pending descriptor 6
differs from 5 again, so the call removes 6 from the multiplexer and adds a
new duplicate (descriptor 7): a second registration. When the multiplexer
rejects that second add, the second call does not return 0 either. -/
theorem C3_second_call_registers_again :
    (UpdateSharedFence (importedHandle 24) (validFd 5) (validFd 9) (acceptingMux 6)
        (constMemory 2 0)).map (fun r => (r.ret, r.self.pending_fence_fd_, r.events))
      = some (0, validFd 6, [Event.epoll_add 9 6 1]) ∧
    ((UpdateSharedFence (importedHandle 24) (validFd 5) (validFd 9) (acceptingMux 6)
        (constMemory 2 0)).bind (fun r1 =>
      UpdateSharedFence r1.self (validFd 5) (validFd 9) (acceptingMux 7) r1.mem)).map
        (fun r => (r.ret, r.events))
      = some (0, [Event.epoll_del 9 6, Event.epoll_add 9 7 1]) ∧
    ((UpdateSharedFence (importedHandle 24) (validFd 5) (validFd 9) (acceptingMux 6)
        (constMemory 2 0)).bind (fun r1 =>
      UpdateSharedFence r1.self (validFd 5) (validFd 9) (rejectingMux 7 12) r1.mem)).map
        (fun r => (r.ret, r.events))
      = some (-12, [Event.epoll_del 9 6, Event.epoll_add 9 7 1]) := by
  decide

/-! ## Blob descriptors -/

theorem std_copy_apply (src : Nat → Int) (n : Nat) :
    ∀ (first : Nat) (dst : Nat → Int) (out i : Nat),
      std_copy src first n dst out i =
        if out ≤ i ∧ i < out + n then src (first + (i - out)) else dst i := by
  induction n with
  | zero =>
      intro first dst out i
      have hno : ¬ (out ≤ i ∧ i < out + 0) := by omega
      simp only [std_copy, if_neg hno]
  | succ n ih =>
      intro first dst out i
      rw [std_copy, ih]
      by_cases hi : i = out
      · subst hi
        have h1 : ¬ (i + 1 ≤ i ∧ i < i + 1 + n) := by omega
        have h2 : i ≤ i ∧ i < i + (n + 1) := by omega
        rw [if_neg h1, if_pos h2, Function.update_same, Nat.sub_self, Nat.add_zero]
      · by_cases hin : out + 1 ≤ i ∧ i < out + 1 + n
        · have h2 : out ≤ i ∧ i < out + (n + 1) := by omega
          rw [if_pos hin, if_pos h2]
          congr 1
          omega
        · have h2 : ¬ (out ≤ i ∧ i < out + (n + 1)) := by omega
          rw [if_neg hin, if_neg h2, Function.update_noteq hi]

/-- C10: for every native handle whose `numFds` is a non-negative `int`,
every array `fds` and every `max_fds_count`, `GetBlobFds` sets `*fds_count` to
`min(max_fds_count, numFds)`, makes `fds[i]` equal to `data[i]` for every
`i < *fds_count`, and leaves every element of `fds` at an index
`>= *fds_count`, so every element at an index `>= max_fds_count`, as it was. -/
theorem C10_get_blob_fds_capped (nh : native_handle_t) (fds : Nat → Int) (max_fds_count : Nat)
    (hnonneg : 0 ≤ nh.numFds) (hint : nh.numFds < 2 ^ 31) :
    (GetBlobFds nh fds max_fds_count).2 = min max_fds_count nh.numFds.toNat ∧
      (∀ i, i < (GetBlobFds nh fds max_fds_count).2 →
        (GetBlobFds nh fds max_fds_count).1 i = nh.data i) ∧
      (∀ i, (GetBlobFds nh fds max_fds_count).2 ≤ i →
        (GetBlobFds nh fds max_fds_count).1 i = fds i) ∧
      (∀ i, max_fds_count ≤ i → (GetBlobFds nh fds max_fds_count).1 i = fds i) := by
  have hcast : size_t_of_int nh.numFds = nh.numFds.toNat := by
    unfold size_t_of_int kWordBits
    congr 1
    apply Int.emod_eq_of_lt hnonneg
    have : (2 : Int) ^ 31 < ((2 ^ 64 : Nat) : Int) := by norm_num
    omega
  have hcount : (GetBlobFds nh fds max_fds_count).2 = min max_fds_count nh.numFds.toNat := by
    show min max_fds_count (size_t_of_int nh.numFds) = _
    rw [hcast]
  have hfds : ∀ i, (GetBlobFds nh fds max_fds_count).1 i =
      if i < min max_fds_count nh.numFds.toNat then nh.data i else fds i := by
    intro i
    show std_copy nh.data 0 (min max_fds_count (size_t_of_int nh.numFds)) fds 0 i = _
    rw [hcast, std_copy_apply]
    by_cases hi : i < min max_fds_count nh.numFds.toNat
    · have h2 : 0 ≤ i ∧ i < 0 + min max_fds_count nh.numFds.toNat := by omega
      rw [if_pos h2, if_pos hi, Nat.zero_add, Nat.sub_zero]
    · have h2 : ¬ (0 ≤ i ∧ i < 0 + min max_fds_count nh.numFds.toNat) := by omega
      rw [if_neg h2, if_neg hi]
  refine ⟨hcount, ?_, ?_, ?_⟩
  · intro i hi
    rw [hcount] at hi
    rw [hfds, if_pos hi]
  · intro i hi
    rw [hcount] at hi
    rw [hfds, if_neg (Nat.not_lt.mpr hi)]
  · intro i hi
    have hge : ¬ i < min max_fds_count nh.numFds.toNat := by
      have := Nat.min_le_left max_fds_count nh.numFds.toNat
      omega
    rw [hfds, if_neg hge]

/-- Witness of C10: three descriptors and room for two. -/
theorem C10_witness :
    (GetBlobFds threeFds (fun _ => -1) 2).2 = min 2 threeFds.numFds.toNat ∧
      (∀ i, i < (GetBlobFds threeFds (fun _ => -1) 2).2 →
        (GetBlobFds threeFds (fun _ => -1) 2).1 i = threeFds.data i) ∧
      (∀ i, (GetBlobFds threeFds (fun _ => -1) 2).2 ≤ i →
        (GetBlobFds threeFds (fun _ => -1) 2).1 i = (fun _ => -1) i) ∧
      (∀ i, 2 ≤ i → (GetBlobFds threeFds (fun _ => -1) 2).1 i = (fun _ => -1) i) :=
  C10_get_blob_fds_capped threeFds (fun _ => -1) 2 (by decide) (by decide)

end BufferHub
